import Mathlib

/-!
Verification of the TW-ESPORTS team-management application's scoring core.

The development shallowly embeds the data model (`models.py`) and the
statistics / leaderboard computations (`app.py`) of the repository:

* `User`, `Stats` mirror the SQLAlchemy tables (plus the two columns
  `match_type`, `position` added to `stats` by the lightweight migration
  in `app.py`).
* Dates are stored by the application as chronologically ordered values
  (ISO-formatted); we encode a date as a natural number so that the
  order-comparisons used by the report filters are preserved.
* Counters (kills, damage, survival) follow the data model's non-negative
  integer domain and are embedded as `ℕ`; a placement position arriving
  from a form is an arbitrary integer, hence `ℤ`.
* Scores are exact rationals: every score produced by the code is an exact
  multiple of 1/100 (damage contributes `damage/100`, survival `survival*0.5`),
  so Python's `round(x, 2)` is modelled by `round2` below; on the reachable
  values the rounding is exact and the half-way tie-breaking convention is
  irrelevant.
-/

/-- `User` row of `models.py` (the fields the scoring core reads). -/
structure User where
  id : ℕ
  username : String
  role : String
  ff_uid : String
  player_role : String
  best_kills : ℕ
  best_damage : ℕ
  active : Bool
deriving DecidableEq, Repr

/-- `Stats` row of `models.py`, including the migrated `match_type` and
`position` columns.  `booyah` and `position` are nullable in the store. -/
structure Stats where
  id : ℕ
  player_id : ℕ
  date : ℕ
  kills : ℕ
  booyah : Option ℕ
  damage : ℕ
  survival : ℕ
  screenshot : Option String
  match_type : Option String
  position : Option ℤ
deriving DecidableEq, Repr

/-- The fixed `POSITION_POINTS` dictionary of `app.py`; lookup with
default 0 (`POSITION_POINTS.get(pos_int, 0)`). -/
def POSITION_POINTS : ℤ → ℕ
  | 1 => 12
  | 2 => 9
  | 3 => 8
  | 4 => 7
  | 5 => 6
  | 6 => 5
  | 7 => 4
  | 8 => 3
  | 9 => 2
  | 10 => 1
  | 11 => 0
  | 12 => 0
  | _ => 0

/-- `position_to_points(pos)` of `app.py`: `int(pos) if pos is not None
else 0`, then table lookup with default 0. -/
def position_to_points (pos : Option ℤ) : ℕ :=
  POSITION_POINTS (pos.getD 0)

/-- One record's contribution to `total_position_points` in the
`leaderboard` / `public_team` aggregation:
`position_to_points(r.position) if r.position is not None else (12 * (r.booyah or 0))`. -/
def pp_contribution (r : Stats) : ℕ :=
  match r.position with
  | some _ => position_to_points r.position
  | none => 12 * r.booyah.getD 0

/-- `total_kills = sum(r.kills for r in records)`. -/
def total_kills (records : List Stats) : ℕ :=
  (records.map (·.kills)).sum

/-- The win test of the aggregation loops:
`(r.position == 1) or (r.position is None and (r.booyah or 0) > 0)`. -/
def is_win (r : Stats) : Bool :=
  r.position == some 1 || (r.position == none && decide (0 < r.booyah.getD 0))

/-- `total_wins = sum(1 for r in records if ...)`. -/
def total_wins (records : List Stats) : ℕ :=
  records.countP is_win

/-- `total_position_points = sum(... for r in records)`. -/
def total_position_points (records : List Stats) : ℕ :=
  (records.map pp_contribution).sum

/-- `total_damage = sum(r.damage for r in records)`. -/
def total_damage (records : List Stats) : ℕ :=
  (records.map (·.damage)).sum

/-- `total_survival = sum(r.survival for r in records)`. -/
def total_survival (records : List Stats) : ℕ :=
  (records.map (·.survival)).sum

/-- Python's `round(x, 2)`.  On the values this program rounds, `100 * x`
is an exact integer, so any tie-breaking convention gives the same result. -/
def round2 (q : ℚ) : ℚ :=
  ((round (100 * q) : ℤ) : ℚ) / 100

/-- The unrounded leaderboard score:
`score = total_kills + total_position_points + (total_damage / 100) + (total_survival * 0.5)`. -/
def raw_score (records : List Stats) : ℚ :=
  (total_kills records : ℚ) + (total_position_points records : ℚ)
    + (total_damage records : ℚ) / 100 + (total_survival records : ℚ) * (1/2)

/-- The rounded score stored in a board entry: `round(score, 2)`. -/
def score (records : List Stats) : ℚ :=
  round2 (raw_score records)

/-- The score formula as a function of the four totals (used to state
monotonicity claims about the formula itself). -/
def score_formula (kills pp damage survival : ℕ) : ℚ :=
  round2 ((kills : ℚ) + (pp : ℚ) + (damage : ℚ) / 100 + (survival : ℚ) * (1/2))

/-- `100 * raw` is an integer, so `round2` is exact on score values. -/
theorem score_formula_exact (kills pp damage survival : ℕ) :
    score_formula kills pp damage survival =
      ((100 * kills + 100 * pp + damage + 50 * survival : ℕ) : ℚ) / 100 := by
  unfold score_formula round2
  have h : (kills : ℚ) + (pp : ℚ) + (damage : ℚ) / 100 + (survival : ℚ) * (1/2)
      = ((100 * kills + 100 * pp + damage + 50 * survival : ℕ) : ℚ) / 100 := by
    push_cast
    ring
  rw [h, mul_div_cancel₀]
  · rw [round_natCast]
    push_cast
    ring
  · norm_num

theorem score_eq_formula (records : List Stats) :
    score records = score_formula (total_kills records) (total_position_points records)
      (total_damage records) (total_survival records) := rfl

/-- `is_win` agrees with the propositional win condition of the spec. -/
theorem is_win_eq (r : Stats) :
    is_win r = decide (r.position = some 1 ∨ (r.position = none ∧ 0 < r.booyah.getD 0)) := by
  unfold is_win
  cases hp : r.position with
  | none => simp
  | some p => by_cases h : p = 1 <;> simp [h]

/-- The two example records of the spec:
`{kills:5,pos:1,damage:800,survival:10}` and `{kills:3,pos:5,damage:400,survival:4}`.
Fields: id, player_id, date, kills, booyah, damage, survival, screenshot,
match_type, position. -/
def C1_example_records : List Stats :=
  [⟨1, 7, 0, 5, some 1, 800, 10, none, none, some 1⟩,
   ⟨2, 7, 0, 3, some 0, 400, 4, none, none, some 5⟩]

/-- C1: for every list of records the leaderboard score equals
`round(totalKills + totalPositionPoints + totalDamage/100 + totalSurvival*0.5, 2)`,
and on the spec's two example records the aggregate is totalKills = 8,
totalWins = 1, positionPoints = 18 and score = 45.00. -/
theorem C1_score_formula_and_example :
    (∀ records : List Stats,
      score records = round2 ((total_kills records : ℚ) + (total_position_points records : ℚ)
        + (total_damage records : ℚ) / 100 + (total_survival records : ℚ) * (1/2)))
    ∧ total_kills C1_example_records = 8
    ∧ total_wins C1_example_records = 1
    ∧ total_position_points C1_example_records = 18
    ∧ score C1_example_records = 45 := by
  refine ⟨fun records => rfl, by decide, by decide, by decide, ?_⟩
  have h1 : total_kills C1_example_records = 8 := by decide
  have h2 : total_position_points C1_example_records = 18 := by decide
  have h3 : total_damage C1_example_records = 1200 := by decide
  have h4 : total_survival C1_example_records = 14 := by decide
  rw [score_eq_formula, h1, h2, h3, h4, score_formula_exact]
  norm_num

/-- C2: `position_to_points` returns the fixed table value on 1..12 and 0
on any other or missing placement; for a record with null position the
aggregation substitutes `12 * (booyah or 0)`. -/
theorem C2_position_points_table :
    (position_to_points (some 1) = 12 ∧ position_to_points (some 2) = 9 ∧
     position_to_points (some 3) = 8 ∧ position_to_points (some 4) = 7 ∧
     position_to_points (some 5) = 6 ∧ position_to_points (some 6) = 5 ∧
     position_to_points (some 7) = 4 ∧ position_to_points (some 8) = 3 ∧
     position_to_points (some 9) = 2 ∧ position_to_points (some 10) = 1 ∧
     position_to_points (some 11) = 0 ∧ position_to_points (some 12) = 0)
    ∧ (∀ p : ℤ, p < 1 ∨ 12 < p → position_to_points (some p) = 0)
    ∧ position_to_points none = 0
    ∧ (∀ r : Stats, r.position = none → pp_contribution r = 12 * r.booyah.getD 0) := by
  refine ⟨by decide, ?_, by decide, ?_⟩
  · intro p hp
    unfold position_to_points POSITION_POINTS
    simp only [Option.getD_some]
    split <;> omega
  · intro r hr
    simp [pp_contribution, hr]

theorem C2_witness :
    position_to_points (some 13) = 0 ∧
    pp_contribution ⟨1, 1, 0, 0, some 1, 0, 0, none, none, none⟩ = 12 :=
  ⟨C2_position_points_table.2.1 13 (by decide),
   by
    have h := C2_position_points_table.2.2.2 ⟨1, 1, 0, 0, some 1, 0, 0, none, none, none⟩ rfl
    simpa using h⟩

/-- C3: `total_wins` counts exactly the records whose position is 1 or
whose position is null with a positive booyah flag. -/
theorem C3_total_wins_count (records : List Stats) :
    total_wins records =
      (records.filter (fun r => decide (r.position = some 1 ∨
        (r.position = none ∧ 0 < r.booyah.getD 0)))).length := by
  unfold total_wins
  rw [List.countP_eq_length_filter]
  exact congrArg List.length
    (List.filter_congr (fun r _ => is_win_eq r))

/-- `Stats.query.filter_by(player_id=p.id)` plus the optional
`Stats.match_type == match_type` filter used by the `leaderboard` and
`public_team` views ("overall" applies no match-type constraint; a SQL
equality never matches a NULL `match_type`). -/
def records_for (stats : List Stats) (pid : ℕ) (match_type : String) : List Stats :=
  stats.filter fun r =>
    r.player_id == pid && (match_type == "overall" || r.match_type == some match_type)

/-- One row of the `board` list built by the `/leaderboard` view. -/
structure LBEntry where
  name : String
  kills : ℕ
  booyah : ℕ
  position_points : ℕ
  damage : ℕ
  survival : ℕ
  score : ℚ
deriving DecidableEq, Repr

/-- The dict appended for player `p` inside the `leaderboard` loop. -/
def lb_entry (stats : List Stats) (match_type : String) (p : User) : LBEntry :=
  let records := records_for stats p.id match_type
  { name := p.username
    kills := total_kills records
    booyah := total_wins records
    position_points := total_position_points records
    damage := total_damage records
    survival := total_survival records
    score := score records }

/-- `sorted(board, key=lambda x: x["score"], reverse=True)`: the sort key
comparison of a stable descending sort by score. -/
def by_score_desc (a b : LBEntry) : Bool := decide (b.score ≤ a.score)

/-- The `type_map.get(raw_type, "overall")` lookup shared verbatim by the
`leaderboard` and `public_team` routes. -/
def type_map (raw : String) : String :=
  if raw == "br" then "BR"
  else if raw == "cs" then "CS"
  else if raw == "scrims" then "Scrims"
  else if raw == "custom" then "Custom"
  else if raw == "all" then "overall"
  else if raw == "overall" then "overall"
  else "overall"

/-- The `/leaderboard` view: one entry per active user with role
"player", sorted by score descending (Python's `sorted` is stable). -/
def leaderboard (users : List User) (stats : List Stats) (match_type : String) :
    List LBEntry :=
  ((users.filter fun u => u.role == "player" && u.active).map
    (lb_entry stats match_type)).mergeSort by_score_desc

/-- One row of the `board` list built by the public `/team` view: the
leaderboard fields plus the player's game UID and role label. -/
structure PTEntry where
  name : String
  ff_uid : String
  player_role : String
  kills : ℕ
  booyah : ℕ
  position_points : ℕ
  damage : ℕ
  survival : ℕ
  score : ℚ
deriving DecidableEq, Repr

/-- Forget the two extra public fields of a public-roster row. -/
def PTEntry.toLB (e : PTEntry) : LBEntry :=
  { name := e.name
    kills := e.kills
    booyah := e.booyah
    position_points := e.position_points
    damage := e.damage
    survival := e.survival
    score := e.score }

/-- The dict appended for player `p` inside the `public_team` loop. -/
def pt_entry (stats : List Stats) (match_type : String) (p : User) : PTEntry :=
  let records := records_for stats p.id match_type
  { name := p.username
    ff_uid := p.ff_uid
    player_role := p.player_role
    kills := total_kills records
    booyah := total_wins records
    position_points := total_position_points records
    damage := total_damage records
    survival := total_survival records
    score := score records }

/-- The public `/team` sort comparison (same key, same direction). -/
def pt_by_score_desc (a b : PTEntry) : Bool := decide (b.score ≤ a.score)

/-- The public `/team` view. -/
def public_team (users : List User) (stats : List Stats) (match_type : String) :
    List PTEntry :=
  ((users.filter fun u => u.role == "player" && u.active).map
    (pt_entry stats match_type)).mergeSort pt_by_score_desc

theorem by_score_desc_trans (a b c : LBEntry) :
    by_score_desc a b → by_score_desc b c → by_score_desc a c := by
  simp only [by_score_desc, decide_eq_true_eq]
  exact fun h1 h2 => le_trans h2 h1

theorem by_score_desc_total (a b : LBEntry) :
    by_score_desc a b || by_score_desc b a := by
  simp only [by_score_desc, Bool.or_eq_true, decide_eq_true_eq]
  exact le_total b.score a.score

/-- C4: the leaderboard aggregates exactly the active role-"player"
users; its output is sorted descending by score; and for pairwise
distinct scores, reversing the input order does not change the output. -/
theorem C4_leaderboard_sorted_stable :
    ∀ (users : List User) (stats : List Stats) (mt : String),
      (leaderboard users stats mt).Perm
        ((users.filter fun u => u.role == "player" && u.active).map (lb_entry stats mt))
      ∧ (leaderboard users stats mt).Pairwise (fun a b => b.score ≤ a.score)
      ∧ ((((users.filter fun u => u.role == "player" && u.active).map
            (lb_entry stats mt)).Pairwise fun a b => a.score ≠ b.score) →
          leaderboard users.reverse stats mt = leaderboard users stats mt)
      ∧ (∀ a b : LBEntry, a.score = b.score →
          ([a, b]).Sublist ((users.filter fun u => u.role == "player" && u.active).map
            (lb_entry stats mt)) →
          ([a, b]).Sublist (leaderboard users stats mt)) := by
  intro users stats mt
  have hsorted : ∀ l : List LBEntry,
      (l.mergeSort by_score_desc).Pairwise (fun a b => b.score ≤ a.score) :=
    fun l => (List.sorted_mergeSort by_score_desc_trans by_score_desc_total l).imp
      (fun h => by simpa [by_score_desc] using h)
  refine ⟨List.mergeSort_perm _ _, hsorted _, ?_, ?_⟩
  case refine_2 =>
    intro a b hs hsub
    exact List.pair_sublist_mergeSort by_score_desc_trans by_score_desc_total
      (by simp [by_score_desc, hs]) hsub
  intro hne
  have hrev : (users.reverse.filter fun u => u.role == "player" && u.active).map
      (lb_entry stats mt) =
      ((users.filter fun u => u.role == "player" && u.active).map
        (lb_entry stats mt)).reverse := by
    rw [List.filter_reverse, List.map_reverse]
  have hperm2 : (leaderboard users.reverse stats mt).Perm
      ((users.filter fun u => u.role == "player" && u.active).map (lb_entry stats mt)) := by
    unfold leaderboard
    rw [hrev]
    exact (List.mergeSort_perm _ _).trans (List.reverse_perm _)
  have hperm : (leaderboard users.reverse stats mt).Perm (leaderboard users stats mt) :=
    hperm2.trans (List.mergeSort_perm _ _).symm
  have hne1 : (leaderboard users stats mt).Pairwise fun a b => a.score ≠ b.score :=
    ((List.mergeSort_perm _ by_score_desc).pairwise_iff (fun h => Ne.symm h)).2 hne
  have hne2 : (leaderboard users.reverse stats mt).Pairwise fun a b => a.score ≠ b.score :=
    (hperm2.pairwise_iff (fun h => Ne.symm h)).2 hne
  have hstrict : ∀ l : List LBEntry,
      l.Pairwise (fun a b => b.score ≤ a.score) →
      l.Pairwise (fun a b => a.score ≠ b.score) →
      l.Pairwise (fun a b => b.score < a.score) :=
    fun l hle hn => (hle.and hn).imp (fun h => lt_of_le_of_ne h.1 h.2.symm)
  haveI : IsAntisymm LBEntry (fun a b => b.score < a.score) :=
    ⟨fun _ _ h1 h2 => absurd (h1.trans h2) (lt_irrefl _)⟩
  exact List.eq_of_perm_of_sorted hperm
    (hstrict _ (by
      have h := hsorted ((users.reverse.filter fun u => u.role == "player" && u.active).map
        (lb_entry stats mt))
      exact h) hne2)
    (hstrict _ (hsorted _) hne1)

theorem C4_witness :
    leaderboard (List.reverse [⟨1, "alice", "player", "", "", 0, 0, true⟩]) [] "overall" =
      leaderboard [⟨1, "alice", "player", "", "", 0, 0, true⟩] [] "overall" :=
  (C4_leaderboard_sorted_stable [⟨1, "alice", "player", "", "", 0, 0, true⟩] []
    "overall").2.2.1 (by simp)

/-- C10: for every set of users, records and match-type filter the public
`/team` board carries exactly the leaderboard's per-player aggregates;
a public row only adds the player's game UID and role label. -/
theorem C10_public_team_matches_leaderboard :
    ∀ (users : List User) (stats : List Stats) (mt : String),
      (public_team users stats mt).map PTEntry.toLB = leaderboard users stats mt
      ∧ (∀ p : User,
          PTEntry.toLB (pt_entry stats mt p) = lb_entry stats mt p
          ∧ (pt_entry stats mt p).ff_uid = p.ff_uid
          ∧ (pt_entry stats mt p).player_role = p.player_role) := by
  intro users stats mt
  refine ⟨?_, fun p => ⟨rfl, rfl, rfl⟩⟩
  unfold public_team leaderboard
  have hmap := @List.map_mergeSort PTEntry LBEntry pt_by_score_desc by_score_desc
    PTEntry.toLB
    ((users.filter fun u => u.role == "player" && u.active).map (pt_entry stats mt))
    (fun _ _ _ _ => rfl)
  rw [hmap, List.map_map]
  rfl

/-- The `match_type` normalization shared by `add_stats`, `bulk_stats`
and `edit_proof`: the (already stripped) form value is kept unless it is
non-empty and not one of the allowed types, in which case it becomes
NULL.  (An empty string is stored as the empty string, not NULL.) -/
def normalize_match_type (mt : String) : Option String :=
  if mt != "" && !(["BR", "CS", "Scrims", "Custom"].contains mt) then none
  else some mt

/-- The slice of the store the record-mutating routes touch for one
player: that player's `Stats` rows plus the cached best stats on the
`User` row. -/
structure PlayerState where
  stats : List Stats
  best_kills : ℕ
  best_damage : ℕ
deriving DecidableEq, Repr

/-- `max((r.kills for r in remaining), default=0)`. -/
def max_kills (l : List Stats) : ℕ := (l.map (·.kills)).foldr max 0

/-- `max((r.damage for r in remaining), default=0)`. -/
def max_damage (l : List Stats) : ℕ := (l.map (·.damage)).foldr max 0

/-- The database effect of a POST to `/add_stats`.  `dateOk` stands for
the success of `datetime.strptime` on the submitted date and `fileOk`
for a present, allowed screenshot file; both failures redirect with no
write.  A position outside `[1,12]` is rejected with a flash message and
no write.  Returns `none` when the request is rejected. -/
def add_stats (s : PlayerState) (pid rid : ℕ) (dateOk : Bool) (date kills : ℕ)
    (position : ℤ) (damage survival : ℕ) (match_type : String)
    (fileOk : Bool) (filename : String) : Option PlayerState :=
  if !dateOk then none
  else if position < 1 || 12 < position then none
  else if !fileOk then none
  else
    let booyah : ℕ := if position = 1 then 1 else 0
    let new_record : Stats :=
      ⟨rid, pid, date, kills, some booyah, damage, survival, some filename,
        normalize_match_type match_type, some position⟩
    some
      { stats := s.stats ++ [new_record]
        best_kills := if s.best_kills < kills then kills else s.best_kills
        best_damage := if s.best_damage < damage then damage else s.best_damage }

/-- The database effect of one valid row of the admin `/admin/bulk_stats`
upload: an out-of-range position is coerced to 0 and stored as NULL
(`position=pos_val or None`); the best stats get the same conditional
update as `add_stats`. -/
def bulk_row (s : PlayerState) (pid rid : ℕ) (date kills_val : ℕ) (pos : ℤ)
    (damage_val survival_val : ℕ) (match_type : String) (filename : String) :
    PlayerState :=
  let pos_val : ℤ := if pos < 1 || 12 < pos then 0 else pos
  let booyah_val : ℕ := if pos_val = 1 then 1 else 0
  let new_record : Stats :=
    ⟨rid, pid, date, kills_val, some booyah_val, damage_val, survival_val,
      some filename, normalize_match_type match_type,
      if pos_val = 0 then none else some pos_val⟩
  { stats := s.stats ++ [new_record]
    best_kills := if s.best_kills < kills_val then kills_val else s.best_kills
    best_damage := if s.best_damage < damage_val then damage_val else s.best_damage }

/-- The database effect of a POST to `/edit_proof/<stat_id>` on the
owning player's slice.  A missing record or a malformed date redirects
with no write; an out-of-range position is coerced to 0, stored as NULL
(`stat.position = pos_val or None`) and the edit is persisted, with the
booyah flag kept in sync and the best stats recomputed over the player's
records.  (The optional screenshot replacement only touches the file
reference and is kept unchanged here.) -/
def edit_proof (s : PlayerState) (sid : ℕ) (dateOk : Bool) (date kills : ℕ)
    (position : ℤ) (damage survival : ℕ) (match_type : String) :
    Option PlayerState :=
  if !(s.stats.any fun r => r.id == sid) then none
  else if !dateOk then none
  else
    let pos_val : ℤ := if position < 1 || 12 < position then 0 else position
    let stats' := s.stats.map fun r =>
      if r.id = sid then
        { r with
          date := date
          kills := kills
          position := if pos_val = 0 then none else some pos_val
          booyah := some (if pos_val = 1 then 1 else 0)
          damage := damage
          survival := survival
          match_type := normalize_match_type match_type }
      else r
    some
      { stats := stats'
        best_kills := max_kills stats'
        best_damage := max_damage stats' }

/-- The database effect of a POST to `/delete_proof/<stat_id>`: the
record is removed and the best stats are recomputed over the remaining
records (`Stats.id != stat_id`), with `max(..., default=0)`. -/
def delete_proof (s : PlayerState) (sid : ℕ) : Option PlayerState :=
  if !(s.stats.any fun r => r.id == sid) then none
  else
    let remaining := s.stats.filter fun r => !(r.id == sid)
    some
      { stats := remaining
        best_kills := max_kills remaining
        best_damage := max_damage remaining }

/-- One request against a player's record set. -/
inductive StatsOp where
  | add (pid rid : ℕ) (dateOk : Bool) (date kills : ℕ) (position : ℤ)
      (damage survival : ℕ) (match_type : String) (fileOk : Bool) (filename : String)
  | bulk (pid rid : ℕ) (date kills_val : ℕ) (pos : ℤ)
      (damage_val survival_val : ℕ) (match_type : String) (filename : String)
  | edit (sid : ℕ) (dateOk : Bool) (date kills : ℕ) (position : ℤ)
      (damage survival : ℕ) (match_type : String)
  | del (sid : ℕ)

/-- Apply one request; a rejected request leaves the store unchanged. -/
def apply_op (s : PlayerState) : StatsOp → PlayerState
  | .add pid rid dateOk date kills position damage survival match_type fileOk filename =>
      (add_stats s pid rid dateOk date kills position damage survival match_type
        fileOk filename).getD s
  | .bulk pid rid date kills_val pos damage_val survival_val match_type filename =>
      bulk_row s pid rid date kills_val pos damage_val survival_val match_type filename
  | .edit sid dateOk date kills position damage survival match_type =>
      (edit_proof s sid dateOk date kills position damage survival match_type).getD s
  | .del sid => (delete_proof s sid).getD s

/-- A freshly created player: no records, cached best stats at their
column defaults 0; then any sequence of requests. -/
def run_ops (ops : List StatsOp) : PlayerState :=
  ops.foldl apply_op ⟨[], 0, 0⟩

/-- The cached-best-stats invariant of the spec's data model. -/
def best_inv (s : PlayerState) : Prop :=
  s.best_kills = max_kills s.stats ∧ s.best_damage = max_damage s.stats

theorem foldr_max_shift (l : List ℕ) (c : ℕ) :
    l.foldr max c = max (l.foldr max 0) c := by
  induction l with
  | nil => simp
  | cons x xs ih => simp [ih, Nat.max_assoc]

theorem max_kills_append (l : List Stats) (r : Stats) :
    max_kills (l ++ [r]) = max (max_kills l) r.kills := by
  unfold max_kills
  rw [List.map_append, List.foldr_append, foldr_max_shift (l.map (·.kills))]
  simp

theorem max_damage_append (l : List Stats) (r : Stats) :
    max_damage (l ++ [r]) = max (max_damage l) r.damage := by
  unfold max_damage
  rw [List.map_append, List.foldr_append, foldr_max_shift (l.map (·.damage))]
  simp

theorem cond_best_update (best v : ℕ) :
    (if best < v then v else best) = max best v := by
  rw [Nat.max_def]
  split <;> split <;> omega

theorem best_inv_add (s : PlayerState) (h : best_inv s)
    (pid rid : ℕ) (dateOk : Bool) (date kills : ℕ) (position : ℤ)
    (damage survival : ℕ) (match_type : String) (fileOk : Bool) (filename : String)
    (s' : PlayerState)
    (heq : add_stats s pid rid dateOk date kills position damage survival
      match_type fileOk filename = some s') : best_inv s' := by
  unfold add_stats at heq
  split at heq
  · exact absurd heq (by simp)
  split at heq
  · exact absurd heq (by simp)
  split at heq
  · exact absurd heq (by simp)
  injection heq with h'
  subst h'
  refine ⟨?_, ?_⟩
  · show (if s.best_kills < kills then kills else s.best_kills) = _
    rw [cond_best_update, max_kills_append, h.1]
  · show (if s.best_damage < damage then damage else s.best_damage) = _
    rw [cond_best_update, max_damage_append, h.2]

theorem best_inv_bulk (s : PlayerState) (h : best_inv s)
    (pid rid : ℕ) (date kills_val : ℕ) (pos : ℤ)
    (damage_val survival_val : ℕ) (match_type : String) (filename : String) :
    best_inv (bulk_row s pid rid date kills_val pos damage_val survival_val
      match_type filename) := by
  refine ⟨?_, ?_⟩
  · show (if s.best_kills < kills_val then kills_val else s.best_kills) =
      max_kills (s.stats ++ [_])
    rw [cond_best_update, max_kills_append, h.1]
  · show (if s.best_damage < damage_val then damage_val else s.best_damage) =
      max_damage (s.stats ++ [_])
    rw [cond_best_update, max_damage_append, h.2]

theorem best_inv_edit (s : PlayerState)
    (sid : ℕ) (dateOk : Bool) (date kills : ℕ) (position : ℤ)
    (damage survival : ℕ) (match_type : String) (s' : PlayerState)
    (heq : edit_proof s sid dateOk date kills position damage survival
      match_type = some s') : best_inv s' := by
  unfold edit_proof at heq
  split at heq
  · exact absurd heq (by simp)
  split at heq
  · exact absurd heq (by simp)
  injection heq with h'
  subst h'
  exact ⟨rfl, rfl⟩

theorem best_inv_delete (s : PlayerState) (sid : ℕ) (s' : PlayerState)
    (heq : delete_proof s sid = some s') : best_inv s' := by
  unfold delete_proof at heq
  split at heq
  · exact absurd heq (by simp)
  injection heq with h'
  subst h'
  exact ⟨rfl, rfl⟩

theorem best_inv_apply (s : PlayerState) (h : best_inv s) (op : StatsOp) :
    best_inv (apply_op s op) := by
  cases op with
  | add pid rid dateOk date kills position damage survival match_type fileOk filename =>
    cases heq : add_stats s pid rid dateOk date kills position damage survival
        match_type fileOk filename with
    | none => simpa [apply_op, heq] using h
    | some s' =>
      have h' := best_inv_add s h pid rid dateOk date kills position damage survival
        match_type fileOk filename s' heq
      simpa [apply_op, heq] using h'
  | bulk pid rid date kills_val pos damage_val survival_val match_type filename =>
    exact best_inv_bulk s h pid rid date kills_val pos damage_val survival_val
      match_type filename
  | edit sid dateOk date kills position damage survival match_type =>
    cases heq : edit_proof s sid dateOk date kills position damage survival match_type with
    | none => simpa [apply_op, heq] using h
    | some s' =>
      have h' := best_inv_edit s sid dateOk date kills position damage survival
        match_type s' heq
      simpa [apply_op, heq] using h'
  | del sid =>
    cases heq : delete_proof s sid with
    | none => simpa [apply_op, heq] using h
    | some s' =>
      have h' := best_inv_delete s sid s' heq
      simpa [apply_op, heq] using h'

/-- C5: the cached best_kills / best_damage equal the maxima over the
player's remaining records (0 if none) after every insert, edit or
delete: the invariant holds in every state reachable from a fresh player
and is preserved by every request. -/
theorem C5_best_stats_recomputation :
    (∀ ops : List StatsOp, best_inv (run_ops ops))
    ∧ (∀ s : PlayerState, best_inv s → ∀ op : StatsOp, best_inv (apply_op s op)) := by
  constructor
  · intro ops
    unfold run_ops
    have hgen : ∀ (l : List StatsOp) (s : PlayerState), best_inv s →
        best_inv (l.foldl apply_op s) := by
      intro l
      induction l with
      | nil => exact fun s h => h
      | cons op l ih => exact fun s h => ih _ (best_inv_apply s h op)
    exact hgen ops _ ⟨rfl, rfl⟩
  · exact best_inv_apply

theorem C5_witness :
    best_inv (⟨[⟨1, 7, 0, 5, some 1, 800, 10, none, none, some 1⟩], 5, 800⟩ : PlayerState)
    ∧ best_inv (apply_op ⟨[⟨1, 7, 0, 5, some 1, 800, 10, none, none, some 1⟩], 5, 800⟩
        (.del 1)) :=
  ⟨⟨rfl, rfl⟩,
   C5_best_stats_recomputation.2
     ⟨[⟨1, 7, 0, 5, some 1, 800, 10, none, none, some 1⟩], 5, 800⟩ ⟨rfl, rfl⟩ (.del 1)⟩

/-- A stored placement is NULL or within `[1,12]`. -/
def position_in_range (r : Stats) : Prop :=
  ∀ p : ℤ, r.position = some p → 1 ≤ p ∧ p ≤ 12

/-- C6 counterexample: an admin edit carrying position 13 is NOT
rejected — `edit_proof` coerces the out-of-range position to NULL
(booyah 0) and persists the rest of the edit, changing the store. -/
theorem C6_counterexample_edit_not_rejected :
    edit_proof ⟨[⟨1, 7, 0, 5, some 1, 800, 10, none, none, some 1⟩], 5, 800⟩
        1 true 20240102 7 13 500 3 "BR"
      = some ⟨[⟨1, 7, 20240102, 7, some 0, 500, 3, none, some "BR", none⟩], 7, 500⟩
    ∧ (⟨[⟨1, 7, 20240102, 7, some 0, 500, 3, none, some "BR", none⟩], 7, 500⟩ : PlayerState)
        ≠ ⟨[⟨1, 7, 0, 5, some 1, 800, 10, none, none, some 1⟩], 5, 800⟩ := by
  exact ⟨rfl, by decide⟩

/-- C6 (amended): `add_stats` rejects an out-of-range position before
persistence; the admin edit and bulk-upload paths instead coerce it to
NULL and persist; on all write paths every stored position stays NULL or
within `[1,12]`, so aggregation never sees an out-of-range stored value. -/
theorem C6_stored_position_validity :
    (∀ (s : PlayerState) (pid rid : ℕ) (dateOk : Bool) (date kills : ℕ)
        (position : ℤ) (damage survival : ℕ) (match_type : String)
        (fileOk : Bool) (filename : String),
      position < 1 ∨ 12 < position →
      add_stats s pid rid dateOk date kills position damage survival match_type
        fileOk filename = none)
    ∧ (∀ (s : PlayerState) (pid rid : ℕ) (dateOk : Bool) (date kills : ℕ)
        (position : ℤ) (damage survival : ℕ) (match_type : String)
        (fileOk : Bool) (filename : String) (s' : PlayerState),
      (∀ r ∈ s.stats, position_in_range r) →
      add_stats s pid rid dateOk date kills position damage survival match_type
        fileOk filename = some s' →
      ∀ r ∈ s'.stats, position_in_range r)
    ∧ (∀ (s : PlayerState) (sid : ℕ) (dateOk : Bool) (date kills : ℕ)
        (position : ℤ) (damage survival : ℕ) (match_type : String) (s' : PlayerState),
      (∀ r ∈ s.stats, position_in_range r) →
      edit_proof s sid dateOk date kills position damage survival match_type = some s' →
      ∀ r ∈ s'.stats, position_in_range r)
    ∧ (∀ (s : PlayerState) (pid rid : ℕ) (date kills_val : ℕ) (pos : ℤ)
        (damage_val survival_val : ℕ) (match_type filename : String),
      (∀ r ∈ s.stats, position_in_range r) →
      ∀ r ∈ (bulk_row s pid rid date kills_val pos damage_val survival_val
        match_type filename).stats, position_in_range r)
    ∧ (∀ (s : PlayerState) (sid : ℕ) (s' : PlayerState),
      (∀ r ∈ s.stats, position_in_range r) →
      delete_proof s sid = some s' →
      ∀ r ∈ s'.stats, position_in_range r) := by
  refine ⟨?_, ?_, ?_, ?_, ?_⟩
  · intro s pid rid dateOk date kills position damage survival match_type fileOk
      filename hp
    unfold add_stats
    split
    · rfl
    · rw [if_pos]
      rcases hp with h | h <;> simp [h]
  · intro s pid rid dateOk date kills position damage survival match_type fileOk
      filename s' hprev heq
    unfold add_stats at heq
    split at heq
    · exact absurd heq (by simp)
    split at heq
    · exact absurd heq (by simp)
    next hpos =>
      split at heq
      · exact absurd heq (by simp)
      injection heq with h'
      subst h'
      intro r hr
      simp only [List.mem_append, List.mem_singleton] at hr
      rcases hr with hr | rfl
      · exact hprev r hr
      · intro p hp
        simp only [Bool.or_eq_true, decide_eq_true_eq, not_or] at hpos
        injection hp with hp'
        omega
  · intro s sid dateOk date kills position damage survival match_type s' hprev heq
    unfold edit_proof at heq
    split at heq
    · exact absurd heq (by simp)
    split at heq
    · exact absurd heq (by simp)
    injection heq with h'
    subst h'
    intro r hr
    simp only [List.mem_map] at hr
    obtain ⟨r₀, hr₀, rfl⟩ := hr
    by_cases hid : r₀.id = sid
    · simp only [if_pos hid]
      intro p hp
      simp only at hp
      split at hp
      · exact absurd hp (by simp)
      next hne =>
        simp only [Bool.or_eq_true, decide_eq_true_eq, not_or] at hne
        rw [if_neg (by omega : ¬position = 0)] at hp
        injection hp with hp'
        omega
    · simp only [if_neg hid]
      exact hprev r₀ hr₀
  · intro s pid rid date kills_val pos damage_val survival_val match_type filename
      hprev r hr
    simp only [bulk_row, List.mem_append, List.mem_singleton] at hr
    rcases hr with hr | rfl
    · exact hprev r hr
    · intro p hp
      simp only at hp
      split at hp
      · exact absurd hp (by simp)
      next hne =>
        simp only [Bool.or_eq_true, decide_eq_true_eq, not_or] at hne
        rw [if_neg (by omega : ¬pos = 0)] at hp
        injection hp with hp'
        omega
  · intro s sid s' hprev heq
    unfold delete_proof at heq
    split at heq
    · exact absurd heq (by simp)
    injection heq with h'
    subst h'
    intro r hr
    exact hprev r (List.mem_of_mem_filter hr)

theorem C6_witness :
    ((13 : ℤ) < 1 ∨ 12 < (13 : ℤ))
    ∧ add_stats ⟨[], 0, 0⟩ 7 1 true 20240101 5 13 800 10 "BR" true "shot.png" = none :=
  ⟨by decide,
   C6_stored_position_validity.1 ⟨[], 0, 0⟩ 7 1 true 20240101 5 13 800 10 "BR"
     true "shot.png" (by decide)⟩

/-- A stored win flag agrees with the placement: booyah is 1 iff the
position is 1, else 0. -/
def booyah_consistent (r : Stats) : Prop :=
  r.booyah = some (if r.position = some 1 then 1 else 0)

/-- C8: every record written through creation, bulk upload or admin edit
has booyah = 1 iff position = 1 (else 0); editing a record's position
from 1 to 3 turns its contribution from 12 points + 1 win into 8 points
+ 0 wins, with the stored flag recomputed to 0. -/
theorem C8_booyah_derived_from_position :
    (∀ (s : PlayerState) (pid rid : ℕ) (dateOk : Bool) (date kills : ℕ)
        (position : ℤ) (damage survival : ℕ) (match_type : String)
        (fileOk : Bool) (filename : String) (s' : PlayerState),
      (∀ r ∈ s.stats, booyah_consistent r) →
      add_stats s pid rid dateOk date kills position damage survival match_type
        fileOk filename = some s' →
      ∀ r ∈ s'.stats, booyah_consistent r)
    ∧ (∀ (s : PlayerState) (sid : ℕ) (dateOk : Bool) (date kills : ℕ)
        (position : ℤ) (damage survival : ℕ) (match_type : String) (s' : PlayerState),
      (∀ r ∈ s.stats, booyah_consistent r) →
      edit_proof s sid dateOk date kills position damage survival match_type = some s' →
      ∀ r ∈ s'.stats, booyah_consistent r)
    ∧ (∀ (s : PlayerState) (pid rid : ℕ) (date kills_val : ℕ) (pos : ℤ)
        (damage_val survival_val : ℕ) (match_type filename : String),
      (∀ r ∈ s.stats, booyah_consistent r) →
      ∀ r ∈ (bulk_row s pid rid date kills_val pos damage_val survival_val
        match_type filename).stats, booyah_consistent r)
    ∧ (pp_contribution ⟨1, 7, 0, 5, some 1, 800, 10, none, none, some 1⟩ = 12
      ∧ total_wins [⟨1, 7, 0, 5, some 1, 800, 10, none, none, some 1⟩] = 1
      ∧ edit_proof ⟨[⟨1, 7, 0, 5, some 1, 800, 10, none, none, some 1⟩], 5, 800⟩
          1 true 0 5 3 800 10 ""
        = some ⟨[⟨1, 7, 0, 5, some 0, 800, 10, none, some "", some 3⟩], 5, 800⟩
      ∧ pp_contribution ⟨1, 7, 0, 5, some 0, 800, 10, none, some "", some 3⟩ = 8
      ∧ total_wins [⟨1, 7, 0, 5, some 0, 800, 10, none, some "", some 3⟩] = 0
      ∧ (⟨1, 7, 0, 5, some 0, 800, 10, none, some "", some 3⟩ : Stats).booyah = some 0) := by
  refine ⟨?_, ?_, ?_, by decide, by decide, rfl, by decide, by decide, rfl⟩
  · intro s pid rid dateOk date kills position damage survival match_type fileOk
      filename s' hprev heq
    unfold add_stats at heq
    split at heq
    · exact absurd heq (by simp)
    split at heq
    · exact absurd heq (by simp)
    split at heq
    · exact absurd heq (by simp)
    injection heq with h'
    subst h'
    intro r hr
    simp only [List.mem_append, List.mem_singleton] at hr
    rcases hr with hr | rfl
    · exact hprev r hr
    · show some (if position = 1 then 1 else 0) = some (if _ = some 1 then 1 else 0)
      by_cases h1 : position = 1 <;> simp [h1]
  · intro s sid dateOk date kills position damage survival match_type s' hprev heq
    unfold edit_proof at heq
    split at heq
    · exact absurd heq (by simp)
    split at heq
    · exact absurd heq (by simp)
    injection heq with h'
    subst h'
    intro r hr
    simp only [List.mem_map] at hr
    obtain ⟨r₀, hr₀, rfl⟩ := hr
    by_cases hid : r₀.id = sid
    · simp only [if_pos hid]
      unfold booyah_consistent
      simp only
      split
      · next hz => simp [hz]
      · next hnz =>
        split
        · next h1 => simp [h1]
        · next h1 =>
          rw [if_neg]
          intro hcontra
          split at hcontra
          · exact absurd hcontra (by simp)
          · injection hcontra with hc
            exact h1 hc
    · simp only [if_neg hid]
      exact hprev r₀ hr₀
  · intro s pid rid date kills_val pos damage_val survival_val match_type filename
      hprev r hr
    simp only [bulk_row, List.mem_append, List.mem_singleton] at hr
    rcases hr with hr | rfl
    · exact hprev r hr
    · unfold booyah_consistent
      simp only
      split
      · next hz => simp [hz]
      · next hnz =>
        split
        · next h1 => simp [h1]
        · next h1 =>
          rw [if_neg]
          intro hcontra
          split at hcontra
          · exact absurd hcontra (by simp)
          · injection hcontra with hc
            exact h1 hc

theorem C8_witness :
    booyah_consistent ⟨1, 7, 0, 5, some 1, 800, 10, none, none, some 1⟩
    ∧ ∀ r ∈ (bulk_row ⟨[], 0, 0⟩ 7 2 20240101 4 2 300 6 "CS" "shot2.png").stats,
        booyah_consistent r :=
  ⟨rfl,
   C8_booyah_derived_from_position.2.2.1 ⟨[], 0, 0⟩ 7 2 20240101 4 2 300 6 "CS"
     "shot2.png" (by simp)⟩

/-- The record filter of `/api/report` (and `/api/report/csv`): player
id, optional match type (skipped when absent, empty or "all"), and an
optional inclusive date range. -/
def report_records (stats : List Stats) (pid : ℕ) (match_type : Option String)
    (start_date end_date : Option ℕ) : List Stats :=
  stats.filter fun r =>
    r.player_id == pid
    && (match match_type with
        | some mt => if mt != "" && mt.toLower != "all" then r.match_type == some mt else true
        | none => true)
    && (match start_date with
        | some sd => decide (sd ≤ r.date)
        | none => true)
    && (match end_date with
        | some ed => decide (r.date ≤ ed)
        | none => true)

/-- One row of the `/api/report` JSON payload. -/
structure ReportRow where
  name : String
  num_matches : ℕ
  kills : ℕ
  damage : ℕ
  avg_kills : ℚ
  winrate : ℚ
deriving DecidableEq, Repr

/-- The per-player aggregate of `/api/report`: the divisions are guarded
by the explicit `if matches > 0` check, else both rates are 0; rates are
rounded to 2 decimals on output. -/
def report_row (name : String) (records : List Stats) : ReportRow :=
  { name := name
    num_matches := records.length
    kills := total_kills records
    damage := total_damage records
    avg_kills :=
      if 0 < records.length
      then round2 ((total_kills records : ℚ) / (records.length : ℚ))
      else 0
    winrate :=
      if 0 < records.length
      then round2 (((total_wins records : ℚ) / (records.length : ℚ)) * 100)
      else 0 }

/-- C7: when the (possibly filtered) record set of a player is empty the
report aggregate is all zeros and the leaderboard score is 0; the rate
divisions sit behind the explicit zero-match guard. -/
theorem C7_zero_match_aggregate :
    ∀ (stats : List Stats) (pid : ℕ) (name : String) (match_type : Option String)
      (start_date end_date : Option ℕ),
      report_records stats pid match_type start_date end_date = [] →
      (report_row name (report_records stats pid match_type start_date end_date)).num_matches = 0
      ∧ (report_row name (report_records stats pid match_type start_date end_date)).kills = 0
      ∧ (report_row name (report_records stats pid match_type start_date end_date)).avg_kills = 0
      ∧ (report_row name (report_records stats pid match_type start_date end_date)).winrate = 0
      ∧ score (report_records stats pid match_type start_date end_date) = 0 := by
  intro stats pid name match_type start_date end_date h
  rw [h]
  refine ⟨rfl, rfl, rfl, rfl, ?_⟩
  rw [score_eq_formula, score_formula_exact]
  show ((0 : ℕ) : ℚ) / 100 = 0
  norm_num

theorem C7_witness :
    report_records C1_example_records 7 none (some 20240101) none = []
    ∧ (report_row "alice" (report_records C1_example_records 7 none (some 20240101) none)).num_matches = 0
    ∧ (report_row "alice" (report_records C1_example_records 7 none (some 20240101) none)).avg_kills = 0 := by
  have h : report_records C1_example_records 7 none (some 20240101) none = [] := by decide
  have h' := C7_zero_match_aggregate C1_example_records 7 "alice" none (some 20240101) none h
  exact ⟨h, h'.1, h'.2.2.1⟩

/-- C9: the rounded score formula is monotone (non-decreasing) in each
of the four totals separately, the other three held fixed. -/
theorem C9_score_monotone :
    ∀ k k' pp pp' d d' sv sv' : ℕ,
      (k ≤ k' → score_formula k pp d sv ≤ score_formula k' pp d sv)
      ∧ (pp ≤ pp' → score_formula k pp d sv ≤ score_formula k pp' d sv)
      ∧ (d ≤ d' → score_formula k pp d sv ≤ score_formula k pp d' sv)
      ∧ (sv ≤ sv' → score_formula k pp d sv ≤ score_formula k pp d sv') := by
  intro k k' pp pp' d d' sv sv'
  have hmono : ∀ a b : ℕ, a ≤ b →
      ((a : ℚ) / 100 ≤ (b : ℚ) / 100) := by
    intro a b hab
    have : (a : ℚ) ≤ (b : ℚ) := by exact_mod_cast hab
    linarith
  refine ⟨?_, ?_, ?_, ?_⟩ <;> intro hle <;>
    rw [score_formula_exact, score_formula_exact] <;>
    apply hmono <;> omega

theorem C9_witness :
    (1 : ℕ) ≤ 2 ∧ score_formula 1 3 4 5 ≤ score_formula 2 3 4 5 :=
  ⟨by decide, (C9_score_monotone 1 2 3 3 4 4 5 5).1 (by decide)⟩
